import Mathlib

/-!
# package-dmg: a verification development of `main.go`

`main.go` is one function, `main`, a straight-line pipeline of operating-system
calls and external tool invocations with an early return after each failure and
two deferred clean-ups.  The embedding below keeps that shape:

* a Go string is a byte sequence, written here as a list whose elements stand for
  the bytes (`'.'` and `'/'` are single bytes);
* everything `main` asks of the outside world (the `os`, `os/exec` and
  `path/filepath` calls) is a field of `Runtime`, an arbitrary handler over an
  arbitrary world state, so a statement proved for every `Runtime` holds for every
  behaviour of the file system and of the tools;
* `main` returns the list of the calls it made, each with the result it got, and
  of the messages it printed, in order, together with the final world.
-/

namespace PackageDmg

/-! ## Strings, errors -/

/-- A Go string: a sequence of bytes. -/
abbrev GoString := List Char

/-- A string literal of the source. -/
abbrev lit (s : String) : GoString := s.toList

/-- A non-nil Go `error`: the text that `%v` prints and whether `os.IsNotExist`
holds of it. -/
structure GoError where
  msg : GoString
  notExist : Bool
deriving DecidableEq, Repr

/-- The predicate `os.IsNotExist(err)`; `none` is the nil error. -/
def isNotExist : Option GoError → Bool
  | none => false
  | some e => e.notExist

/-! ## The intermediate image path (line 68) -/

/-- The predicate `os.IsPathSeparator` on the platform of the program (macOS). -/
def isPathSeparator (c : Char) : Bool := c == '/'

/-- Modelled from the spec: the loop of the Go standard library function
`filepath.Ext`, which is not among the repository sources
(`for i := len(path)-1; i >= 0 && !os.IsPathSeparator(path[i]); i--` returning
`path[i:]` at the first `'.'`, and `""` after the loop).  The argument `n` is
`i + 1`. -/
def extLoop (path : GoString) : Nat → GoString
  | 0 => []
  | i + 1 =>
    match path.get? i with
    | none => []
    | some c =>
      if isPathSeparator c then []
      else if c = '.' then path.drop i
      else extLoop path i

/-- Modelled from the spec: `filepath.Ext(path)`, the suffix beginning at the final
dot in the final element of the path, empty if there is no dot. -/
def Ext (path : GoString) : GoString := extLoop path path.length

/-- The slice expression `s[:hi]`; `none` is the run-time panic of a slice bound
out of range. -/
def sliceTo (s : GoString) (hi : Int) : Option GoString :=
  if 0 ≤ hi ∧ hi ≤ (s.length : Int) then some (s.take hi.toNat) else none

/-- Line 68:
`tempDmgPath := dmgPath[:len(dmgPath)-len(filepath.Ext(dmgPath))] + "_temp.dmg"`. -/
def tempDmgPath (dmgPath : GoString) : Option GoString :=
  match sliceTo dmgPath ((dmgPath.length : Int) - ((Ext dmgPath).length : Int)) with
  | none => none
  | some stem => some (stem ++ lit "_temp.dmg")

/-! ## Volume name (lines 18-24) -/

/-- Lines 18-24: `rest` is `os.Args[3:]`. -/
def volumeName (rest : List GoString) : GoString :=
  match rest with
  | v :: _ => if v ≠ [] then v else lit "My DMG"
  | [] => lit "My DMG"

/-! ## Calls, results, traces -/

/-- The six `exec.Command` call sites of `main`: lines 52, 69, 88, 105, 112, 122. -/
inductive Site
  | copy
  | create
  | attach
  | detachAfterSymlinkFailure
  | detach
  | convert
deriving DecidableEq, Repr

deriving instance DecidableEq for Except

/-- One observable action of `main`, with the result the world gave. -/
inductive Event
  | print (text : GoString)
  | stat (path : GoString) (err : Option GoError)
  | abs (path : GoString) (res : Except GoError GoString)
  | mkdirTemp (dir pattern : GoString) (res : Except GoError GoString)
  | exec (site : Site) (argv : List GoString) (err : Option GoError)
  | symlink (oldname newname : GoString) (err : Option GoError)
  | lstat (path : GoString) (err : Option GoError)
  | remove (path : GoString) (err : Option GoError)
  | removeAll (path : GoString) (err : Option GoError)
  | panic
deriving DecidableEq

/-- What `main` calls: the operating system, the external tools and the pure
`path/filepath` helpers, over a world state `σ`. -/
structure Runtime (σ : Type) where
  stat : GoString → σ → Option GoError × σ
  abs : GoString → σ → Except GoError GoString × σ
  mkdirTemp : GoString → GoString → σ → Except GoError GoString × σ
  run : List GoString → σ → Option GoError × σ
  symlink : GoString → GoString → σ → Option GoError × σ
  lstat : GoString → σ → Option GoError × σ
  remove : GoString → σ → Option GoError × σ
  removeAll : GoString → σ → Option GoError × σ
  base : GoString → GoString
  join : GoString → GoString → GoString

/-- Whether the call of an event returned an error (or the event is a panic). -/
def Event.failed : Event → Bool
  | .print _ => false
  | .stat _ err => err.isSome
  | .abs _ res => !res.toBool
  | .mkdirTemp _ _ res => !res.toBool
  | .exec _ _ err => err.isSome
  | .symlink _ _ err => err.isSome
  | .lstat _ err => err.isSome
  | .remove _ err => err.isSome
  | .removeAll _ err => err.isSome
  | .panic => true

/-- The actions of a run, oldest first, and the world it leaves. -/
structure Run (σ : Type) where
  trace : List Event
  world : σ

/-- Prefix a run with the actions that came before it. -/
def Run.after {σ : Type} (pre : List Event) (r : Run σ) : Run σ :=
  ⟨pre ++ r.trace, r.world⟩

/-- A statement `defer func(path string) { _ = os.RemoveAll(path) }(path)`: the
call is made when the rest of the function has returned, its error dropped. -/
def deferRemoveAll {σ : Type} (rt : Runtime σ) (path : GoString) (body : Run σ) : Run σ :=
  match rt.removeAll path body.world with
  | (err, w) => ⟨body.trace ++ [Event.removeAll path err], w⟩

/-! ## The messages of `main` -/

def usageMsg : GoString :=
  lit "Usage: go run main.go <path-to-app> <output-dmg-path> <volume-name>\n"

def notFoundMsg (appPath : GoString) : GoString :=
  lit "Error: .app file not found at " ++ appPath ++ lit "\n"

def absFailedMsg (appPath : GoString) : GoString :=
  lit "Error: Failed to resolve absolute path for " ++ appPath ++ lit "\n"

def tempDirFailedMsg (e : GoError) : GoString :=
  lit "Error: Failed to create temporary directory: " ++ e.msg ++ lit "\n"

def copyFailedMsg (e : GoError) : GoString :=
  lit "Error: Failed to copy .app file: " ++ e.msg ++ lit "\n"

def symlinkFailedMsg (e : GoError) : GoString :=
  lit "Error: Failed to create symlink: " ++ e.msg ++ lit "\n"

def createFailedMsg (e : GoError) : GoString :=
  lit "Error: Failed to create writable DMG: " ++ e.msg ++ lit "\n"

def mountPointFailedMsg (e : GoError) : GoString :=
  lit "Error: Failed to create mount point: " ++ e.msg ++ lit "\n"

def attachFailedMsg (e : GoError) : GoString :=
  lit "Error: Failed to mount DMG: " ++ e.msg ++ lit "\n"

def symlinkInDmgFailedMsg (e : GoError) : GoString :=
  lit "Error: Failed to create symlink in DMG: " ++ e.msg ++ lit "\n"

def detachFailedMsg (e : GoError) : GoString :=
  lit "Error: Failed to unmount DMG: " ++ e.msg ++ lit "\n"

def convertFailedMsg (e : GoError) : GoString :=
  lit "Error: Failed to convert DMG to compressed format: " ++ e.msg ++ lit "\n"

def deleteFailedMsg (e : GoError) : GoString :=
  lit "Error: Failed to delete temporary DMG: " ++ e.msg ++ lit "\n"

def successMsg (dmgPath volName : GoString) : GoString :=
  lit "DMG successfully created at " ++ dmgPath ++ lit " with volume name: "
    ++ volName ++ lit "\n"

/-! ## The argument vectors of the tool invocations -/

/-- Line 52. -/
def copyArgv (absAppPath destAppPath : GoString) : List GoString :=
  [lit "cp", lit "-R", absAppPath, destAppPath]

/-- Line 69. -/
def createArgv (volName tempDir tempDmg : GoString) : List GoString :=
  [lit "hdiutil", lit "create", lit "-volname", volName, lit "-srcfolder", tempDir,
   lit "-ov", lit "-format", lit "UDRW", tempDmg]

/-- Line 88. -/
def attachArgv (tempDmg mountPoint : GoString) : List GoString :=
  [lit "hdiutil", lit "attach", tempDmg, lit "-mountpoint", mountPoint,
   lit "-owners", lit "on"]

/-- Lines 105 and 112. -/
def detachArgv (mountPoint : GoString) : List GoString :=
  [lit "hdiutil", lit "detach", mountPoint]

/-- Line 122. -/
def convertArgv (tempDmg dmgPath : GoString) : List GoString :=
  [lit "hdiutil", lit "convert", tempDmg, lit "-format", lit "UDZO", lit "-o", dmgPath]

/-! ## `main` -/

/-- Lines 110-138: unmount, convert, delete the intermediate image. -/
def finish {σ : Type} (rt : Runtime σ) (dmgPath volName tempDmg mountPoint : GoString)
    (w : σ) : Run σ :=
  match rt.run (detachArgv mountPoint) w with
  | (some e, w1) =>
    ⟨[.print (lit "Unmounting DMG file...\n"),
      .exec .detach (detachArgv mountPoint) (some e),
      .print (detachFailedMsg e)], w1⟩
  | (none, w1) =>
    match rt.run (convertArgv tempDmg dmgPath) w1 with
    | (some e, w2) =>
      ⟨[.print (lit "Unmounting DMG file...\n"),
        .exec .detach (detachArgv mountPoint) none,
        .print (lit "Converting DMG to compressed format...\n"),
        .exec .convert (convertArgv tempDmg dmgPath) (some e),
        .print (convertFailedMsg e)], w2⟩
    | (none, w2) =>
      match rt.remove tempDmg w2 with
      | (some e, w3) =>
        ⟨[.print (lit "Unmounting DMG file...\n"),
          .exec .detach (detachArgv mountPoint) none,
          .print (lit "Converting DMG to compressed format...\n"),
          .exec .convert (convertArgv tempDmg dmgPath) none,
          .print (lit "Deleting temporary writable DMG file...\n"),
          .remove tempDmg (some e),
          .print (deleteFailedMsg e)], w3⟩
      | (none, w3) =>
        ⟨[.print (lit "Unmounting DMG file...\n"),
          .exec .detach (detachArgv mountPoint) none,
          .print (lit "Converting DMG to compressed format...\n"),
          .exec .convert (convertArgv tempDmg dmgPath) none,
          .print (lit "Deleting temporary writable DMG file...\n"),
          .remove tempDmg none,
          .print (successMsg dmgPath volName)], w3⟩

/-- Lines 88-138: attach, make sure of the shortcut, then `finish`. -/
def mounted {σ : Type} (rt : Runtime σ) (dmgPath volName tempDmg mountPoint : GoString)
    (w : σ) : Run σ :=
  match rt.run (attachArgv tempDmg mountPoint) w with
  | (some e, w1) =>
    ⟨[.exec .attach (attachArgv tempDmg mountPoint) (some e),
      .print (attachFailedMsg e)], w1⟩
  | (none, w1) =>
    match rt.lstat (rt.join mountPoint (lit "Applications")) w1 with
    | (lerr, w2) =>
      if !isNotExist lerr then
        (finish rt dmgPath volName tempDmg mountPoint w2).after
          [.exec .attach (attachArgv tempDmg mountPoint) none,
           .lstat (rt.join mountPoint (lit "Applications")) lerr,
           .print (lit "Symlink already exists in DMG mount point. Skipping creation.\n")]
      else
        match rt.symlink (lit "/Applications")
            (rt.join mountPoint (lit "Applications")) w2 with
        | (some e, w3) =>
          match rt.run (detachArgv mountPoint) w3 with
          | (derr, w4) =>
            ⟨[.exec .attach (attachArgv tempDmg mountPoint) none,
              .lstat (rt.join mountPoint (lit "Applications")) lerr,
              .symlink (lit "/Applications") (rt.join mountPoint (lit "Applications"))
                (some e),
              .print (symlinkInDmgFailedMsg e),
              .exec .detachAfterSymlinkFailure (detachArgv mountPoint) derr], w4⟩
        | (none, w3) =>
          (finish rt dmgPath volName tempDmg mountPoint w3).after
            [.exec .attach (attachArgv tempDmg mountPoint) none,
             .lstat (rt.join mountPoint (lit "Applications")) lerr,
             .symlink (lit "/Applications") (rt.join mountPoint (lit "Applications"))
               none]

/-- Lines 49-86: copy the bundle, link `Applications`, create the writable image,
create the mount point (whose removal is deferred), then `mounted`. -/
def staged {σ : Type} (rt : Runtime σ) (absAppPath dmgPath volName tempDir : GoString)
    (w : σ) : Run σ :=
  match rt.run (copyArgv absAppPath (rt.join tempDir (rt.base absAppPath))) w with
  | (some e, w1) =>
    ⟨[.exec .copy (copyArgv absAppPath (rt.join tempDir (rt.base absAppPath))) (some e),
      .print (copyFailedMsg e)], w1⟩
  | (none, w1) =>
    match rt.symlink (lit "/Applications") (rt.join tempDir (lit "Applications")) w1 with
    | (some e, w2) =>
      ⟨[.exec .copy (copyArgv absAppPath (rt.join tempDir (rt.base absAppPath))) none,
        .symlink (lit "/Applications") (rt.join tempDir (lit "Applications")) (some e),
        .print (symlinkFailedMsg e)], w2⟩
    | (none, w2) =>
      match tempDmgPath dmgPath with
      | none =>
        ⟨[.exec .copy (copyArgv absAppPath (rt.join tempDir (rt.base absAppPath))) none,
          .symlink (lit "/Applications") (rt.join tempDir (lit "Applications")) none,
          .print (lit "Creating writable DMG file...\n"),
          .panic], w2⟩
      | some tempDmg =>
        match rt.run (createArgv volName tempDir tempDmg) w2 with
        | (some e, w3) =>
          ⟨[.exec .copy (copyArgv absAppPath (rt.join tempDir (rt.base absAppPath))) none,
            .symlink (lit "/Applications") (rt.join tempDir (lit "Applications")) none,
            .print (lit "Creating writable DMG file...\n"),
            .exec .create (createArgv volName tempDir tempDmg) (some e),
            .print (createFailedMsg e)], w3⟩
        | (none, w3) =>
          match rt.mkdirTemp (lit "") (lit "dmgmount") w3 with
          | (.error e, w4) =>
            ⟨[.exec .copy (copyArgv absAppPath (rt.join tempDir (rt.base absAppPath)))
                none,
              .symlink (lit "/Applications") (rt.join tempDir (lit "Applications")) none,
              .print (lit "Creating writable DMG file...\n"),
              .exec .create (createArgv volName tempDir tempDmg) none,
              .print (lit "Mounting DMG file...\n"),
              .mkdirTemp (lit "") (lit "dmgmount") (.error e),
              .print (mountPointFailedMsg e)], w4⟩
          | (.ok mountPoint, w4) =>
            deferRemoveAll rt mountPoint
              ((mounted rt dmgPath volName tempDmg mountPoint w4).after
                [.exec .copy (copyArgv absAppPath (rt.join tempDir (rt.base absAppPath)))
                   none,
                 .symlink (lit "/Applications") (rt.join tempDir (lit "Applications"))
                   none,
                 .print (lit "Creating writable DMG file...\n"),
                 .exec .create (createArgv volName tempDir tempDmg) none,
                 .print (lit "Mounting DMG file...\n"),
                 .mkdirTemp (lit "") (lit "dmgmount") (.ok mountPoint)])

/-- Lines 26-47: check the bundle path, resolve it, create the staging directory
(whose removal is deferred), then `staged`. -/
def checked {σ : Type} (rt : Runtime σ) (appPath dmgPath volName : GoString)
    (w : σ) : Run σ :=
  match rt.stat appPath w with
  | (serr, w1) =>
    if isNotExist serr then
      ⟨[.stat appPath serr, .print (notFoundMsg appPath)], w1⟩
    else
      match rt.abs appPath w1 with
      | (.error e, w2) =>
        ⟨[.stat appPath serr, .abs appPath (.error e),
          .print (absFailedMsg appPath)], w2⟩
      | (.ok absAppPath, w2) =>
        match rt.mkdirTemp (lit "") (lit "dmgtemp") w2 with
        | (.error e, w3) =>
          ⟨[.stat appPath serr, .abs appPath (.ok absAppPath),
            .mkdirTemp (lit "") (lit "dmgtemp") (.error e),
            .print (tempDirFailedMsg e)], w3⟩
        | (.ok tempDir, w3) =>
          deferRemoveAll rt tempDir
            ((staged rt absAppPath dmgPath volName tempDir w3).after
              [.stat appPath serr, .abs appPath (.ok absAppPath),
               .mkdirTemp (lit "") (lit "dmgtemp") (.ok tempDir)])

/-- The function `main` (lines 10-139); `args` is `os.Args`. -/
def main {σ : Type} (rt : Runtime σ) (args : List GoString) (w : σ) : Run σ :=
  match args with
  | _ :: appPath :: dmgPath :: rest => checked rt appPath dmgPath (volumeName rest) w
  | _ => ⟨[.print usageMsg], w⟩

/-! ## Vocabulary of the statements -/

/-- The last element of a path: what follows its last separator. -/
def lastElement (p : GoString) : GoString :=
  (p.reverse.takeWhile (fun c => c != '/')).reverse

/-- The extension in the words of the specification: the suffix starting at the last
dot of the last path element, empty if there is none. -/
def specExt (p : GoString) : GoString :=
  if '.' ∈ lastElement p then
    '.' :: ((lastElement p).reverse.takeWhile (fun c => c != '.')).reverse
  else []

/-- The directory of a path: the path up to and including its last separator. -/
def dirOf (p : GoString) : GoString :=
  (p.reverse.dropWhile (fun c => c != '/')).reverse

/-- The volume name in the words of the specification: the third user argument when
it is present and non-empty, the fixed default otherwise. -/
def specVolumeName (third : Option GoString) : GoString :=
  match third with
  | some v => if v = [] then lit "My DMG" else v
  | none => lit "My DMG"

/-- The image file that an event names as the intermediate writable image: the
target of the create, the image of the attach, the input of the convert, the file of
the delete. -/
def imagePathOf : Event → Option GoString
  | .exec .create argv _ => argv.getLast?
  | .exec .attach argv _ => argv.get? 2
  | .exec .convert argv _ => argv.get? 2
  | .remove p _ => some p
  | _ => none

/-- How the error message of `main` names the step of a tool invocation; the
invocation of line 105 has no message of its own. -/
def stepName : Site → Option GoString
  | .copy => some (lit "copy .app file")
  | .create => some (lit "create writable DMG")
  | .attach => some (lit "mount DMG")
  | .detach => some (lit "unmount DMG")
  | .convert => some (lit "convert DMG to compressed format")
  | .detachAfterSymlinkFailure => none

/-- The first tool invocation of a trace that returned an error: its site, the
error, and the events after it. -/
def firstFailedTool : List Event → Option (Site × GoError × List Event)
  | [] => none
  | .exec s _ (some e) :: rest => some (s, e, rest)
  | _ :: rest => firstFailedTool rest

/-- The first `os.Lstat` of a trace: its path, its result, and the events after
it. -/
def firstLstat : List Event → Option (GoString × Option GoError × List Event)
  | [] => none
  | .lstat p err :: rest => some (p, err, rest)
  | _ :: rest => firstLstat rest

/-- Whether an event creates something or runs a tool: a temporary directory, a
symbolic link, a tool invocation. -/
def Event.creates : Event → Bool
  | .mkdirTemp _ _ _ => true
  | .symlink _ _ _ => true
  | .exec _ _ _ => true
  | _ => false

/-! ## A reference environment

The tools and the file system of section 6 of the specification, as a world on which
`main` can be run: a set of existing paths, the attached volumes, and switches that
make a given call fail. -/

/-- The state of the reference environment. -/
structure Sim where
  /-- Absolute paths that exist: files, directories, links. -/
  entries : List GoString
  /-- Attached volumes: mount point and image. -/
  volumes : List (GoString × GoString)
  /-- Images whose content has an `Applications` link at its root. -/
  linked : List GoString
  /-- Number of temporary directories handed out. -/
  temps : Nat
  /-- Tools that exit non-zero: `cp`, or the verb of `hdiutil`. -/
  failing : List GoString
  /-- Absolute paths whose `stat` and `lstat` are refused (permission denied). -/
  denied : List GoString
  /-- Whether the image-creation tool leaves symbolic links out of the image. -/
  dropsLinks : Bool
deriving DecidableEq

namespace Sim

/-- Modelled from the spec: absolute form of a path, relative to the working
directory `/work`. -/
def resolve (p : GoString) : GoString :=
  if p.head? = some '/' then p else lit "/work/" ++ p

/-- Modelled from the spec: last element of a clean path (`filepath.Base`). -/
def base (p : GoString) : GoString :=
  (p.reverse.takeWhile (fun c => c != '/')).reverse

/-- Modelled from the spec: `filepath.Join` of two clean, non-empty elements. -/
def join (a b : GoString) : GoString := a ++ lit "/" ++ b

def eNotExist : GoError := ⟨lit "no such file or directory", true⟩

def eDenied : GoError := ⟨lit "permission denied", false⟩

def eExists : GoError := ⟨lit "file exists", false⟩

def eBusy : GoError := ⟨lit "resource busy", false⟩

def eExit : GoError := ⟨lit "exit status 1", false⟩

/-- The argument that follows the flag `flag` in `argv`. -/
def argAfter (flag : GoString) : List GoString → Option GoString
  | [] => none
  | a :: rest => if a = flag then rest.head? else argAfter flag rest

/-- Modelled from the spec: `os.Stat` and `os.Lstat` (links are not followed by
either here: no link of the model dangles). -/
def stat (p : GoString) (w : Sim) : Option GoError × Sim :=
  if resolve p ∈ w.denied then (some eDenied, w)
  else if resolve p ∈ w.entries then (none, w)
  else (some eNotExist, w)

/-- Modelled from the spec: `filepath.Abs`. -/
def abs (p : GoString) (w : Sim) : Except GoError GoString × Sim :=
  (.ok (resolve p), w)

/-- Modelled from the spec: `os.MkdirTemp("", pattern)`, a directory that did not
exist before, under `/tmp`. -/
def mkdirTemp (_dir pattern : GoString) (w : Sim) : Except GoError GoString × Sim :=
  let d := lit "/tmp/" ++ pattern ++ List.replicate (w.temps + 1) '0'
  (.ok d, { w with entries := d :: w.entries, temps := w.temps + 1 })

/-- Modelled from the spec: `os.Symlink`, which fails when the new name exists. -/
def symlink (_old new : GoString) (w : Sim) : Option GoError × Sim :=
  if resolve new ∈ w.entries then (some eExists, w)
  else (none, { w with entries := resolve new :: w.entries })

/-- Modelled from the spec: `os.Remove`. -/
def remove (p : GoString) (w : Sim) : Option GoError × Sim :=
  if resolve p ∈ w.entries then
    (none, { w with
      entries := w.entries.filter (fun q => q != resolve p),
      linked := w.linked.filter (fun q => q != resolve p) })
  else (some eNotExist, w)

/-- Whether `q` is `p` or lies below `p`. -/
def within (p q : GoString) : Bool :=
  q == p || (p ++ lit "/").isPrefixOf q

/-- Modelled from the spec: `os.RemoveAll`; a directory on which a volume is mounted
cannot be removed. -/
def removeAll (p : GoString) (w : Sim) : Option GoError × Sim :=
  if resolve p ∈ w.volumes.map Prod.fst then (some eBusy, w)
  else (none, { w with entries := w.entries.filter (fun q => !within (resolve p) q) })

/-- Put `img` among the images with a link, or take it out. -/
def setLinked (img : GoString) (b : Bool) (linked : List GoString) : List GoString :=
  if b then img :: linked.filter (fun q => q != img)
  else linked.filter (fun q => q != img)

/-- Modelled from the spec: the recursive copy `cp -R src dst`. -/
def cp (src dst : GoString) (w : Sim) : Option GoError × Sim :=
  if lit "cp" ∉ w.failing ∧ resolve src ∈ w.entries ∧ resolve src ∉ w.denied then
    (none, { w with entries := resolve dst :: w.entries })
  else (some eExit, w)

/-- Modelled from the spec: `hdiutil create`, which writes the image `target` from
the folder that follows `-srcfolder`, and overwrites an existing target only when it
is given `-ov`. -/
def create (argv : List GoString) (w : Sim) : Option GoError × Sim :=
  let target := resolve (argv.getLast?.getD [])
  let src := resolve ((argAfter (lit "-srcfolder") argv).getD [])
  if lit "create" ∈ w.failing ∨ (target ∈ w.entries ∧ lit "-ov" ∉ argv) then (some eExit, w)
  else
    (none, { w with
      entries := target :: w.entries.filter (fun q => q != target),
      linked := setLinked target
        (!w.dropsLinks && decide (join src (lit "Applications") ∈ w.entries)) w.linked })

/-- Modelled from the spec: `hdiutil attach img -mountpoint mp`, which shows the
content of the image at the mount point. -/
def attach (img : GoString) (argv : List GoString) (w : Sim) : Option GoError × Sim :=
  let mp := resolve ((argAfter (lit "-mountpoint") argv).getD [])
  if lit "attach" ∉ w.failing ∧ resolve img ∈ w.entries ∧ mp ∈ w.entries then
    (none, { w with
      volumes := (mp, resolve img) :: w.volumes,
      entries := if resolve img ∈ w.linked then join mp (lit "Applications") :: w.entries
                 else w.entries })
  else (some eExit, w)

/-- Modelled from the spec: `hdiutil detach mp`.  The image is writable: what was
changed below the mount point stays in the image. -/
def detach (mp : GoString) (w : Sim) : Option GoError × Sim :=
  match w.volumes.lookup (resolve mp) with
  | none => (some eExit, w)
  | some img =>
    if lit "detach" ∈ w.failing then (some eExit, w)
    else
      (none, { w with
        volumes := w.volumes.filter (fun v => v.1 != resolve mp),
        linked := setLinked img
          (decide (join (resolve mp) (lit "Applications") ∈ w.entries)) w.linked,
        entries := w.entries.filter (fun q => !(join (resolve mp) []).isPrefixOf q) })

/-- Modelled from the spec: `hdiutil convert img ... -o out`, which writes the content
of `img` to `out`, and overwrites an existing `out` only when it is given `-ov`. -/
def convert (img : GoString) (argv : List GoString) (w : Sim) : Option GoError × Sim :=
  let out := resolve ((argAfter (lit "-o") argv).getD [])
  if lit "convert" ∈ w.failing ∨ resolve img ∉ w.entries
      ∨ (out ∈ w.entries ∧ lit "-ov" ∉ argv) then (some eExit, w)
  else
    (none, { w with
      entries := out :: w.entries.filter (fun q => q != out),
      linked := setLinked out (decide (resolve img ∈ w.linked)) w.linked })

/-- Modelled from the spec: the external tools of section 6, chosen by the command
line. -/
def run (argv : List GoString) (w : Sim) : Option GoError × Sim :=
  match argv with
  | tool :: verb :: a :: rest =>
    if tool = lit "cp" then
      match rest with
      | [dst] => cp a dst w
      | _ => (some eExit, w)
    else if tool ≠ lit "hdiutil" then (some eExit, w)
    else if verb = lit "create" then create argv w
    else if verb = lit "attach" then attach a rest w
    else if verb = lit "detach" then detach a w
    else if verb = lit "convert" then convert a rest w
    else (some eExit, w)
  | _ => (some eExit, w)

/-- The reference environment as a `Runtime`. -/
def runtime : Runtime Sim where
  stat := stat
  abs := abs
  mkdirTemp := mkdirTemp
  run := run
  symlink := symlink
  lstat := stat
  remove := remove
  removeAll := removeAll
  base := base
  join := join

/-- A world in which only the bundle `/work/MyApp.app` exists. -/
def fresh : Sim :=
  { entries := [lit "/work/MyApp.app"], volumes := [], linked := [], temps := 0,
    failing := [], denied := [], dropsLinks := false }

/-- Whether a path exists in a world (`os.Lstat` returns no error). -/
def present (w : Sim) (p : GoString) : Bool := decide (resolve p ∈ w.entries)

/-- The world `fresh` with one tool made to exit non-zero. -/
def failingAt (tool : GoString) : Sim := { fresh with failing := [tool] }

/-- A world without the bundle. -/
def noBundle : Sim := { fresh with entries := [] }

/-- The world `fresh` with the `stat` of the bundle refused. -/
def bundleDenied : Sim := { fresh with denied := [lit "/work/MyApp.app"] }

/-- A world whose image-creation tool leaves links out and in which the `lstat` of
the shortcut at the mount point is refused. -/
def lstatDenied : Sim :=
  { fresh with dropsLinks := true, denied := [lit "/tmp/dmgmount00/Applications"] }

/-- A world whose image-creation tool leaves links out. -/
def linkless : Sim := { fresh with dropsLinks := true }

end Sim

/-- The argument vector of the example of the specification. -/
def exampleArgs : List GoString :=
  [lit "package-dmg", lit "MyApp.app", lit "Output.dmg", lit "Cool App"]

/-- The example run in the reference environment. -/
def exampleRun (w : Sim) : Run Sim := main Sim.runtime exampleArgs w

/-- The world that a first, successful example run leaves. -/
def afterFirstRun : Sim := (exampleRun Sim.fresh).world

/-! ## Lemmas -/

set_option maxHeartbeats 1000000

theorem main_cons {σ : Type} (rt : Runtime σ) (w : σ)
    (prog appPath dmgPath : GoString) (rest : List GoString) :
    main rt (prog :: appPath :: dmgPath :: rest) w =
      checked rt appPath dmgPath (volumeName rest) w := rfl

theorem extLoop_spec (path : GoString) (n : Nat) :
    extLoop path n = [] ∨
      ∃ i, i < n ∧ extLoop path n = path.drop i ∧ path.get? i = some '.' := by
  induction n with
  | zero => left; rfl
  | succ i ih =>
    unfold extLoop
    cases h : path.get? i with
    | none => left; rfl
    | some c =>
      simp only
      split
      · left; rfl
      · split
        · next hc => right; exact ⟨i, Nat.lt_succ_self i, rfl, by rw [hc] at h; exact h⟩
        · rcases ih with h0 | ⟨j, hj, hd, hg⟩
          · left; exact h0
          · right; exact ⟨j, Nat.lt_succ_of_lt hj, hd, hg⟩

/-- `Ext` returns the empty string or a suffix of the path that starts with a dot. -/
theorem Ext_cases (p : GoString) :
    Ext p = [] ∨ ∃ i, i < p.length ∧ Ext p = p.drop i ∧ (Ext p).head? = some '.' := by
  rcases extLoop_spec p p.length with h | ⟨i, hi, hd, hg⟩
  · left; exact h
  · right
    refine ⟨i, hi, hd, ?_⟩
    unfold Ext
    rw [hd]
    rw [List.get?_eq_getElem?] at hg
    simpa [List.head?_drop] using hg

theorem Ext_length_le (p : GoString) : (Ext p).length ≤ p.length := by
  rcases Ext_cases p with h | ⟨i, _, hd, _⟩
  · simp [h]
  · rw [hd]; simp

/-- The slice of line 68 is in bounds and cuts the path just before its extension. -/
theorem tempDmgPath_eq (p : GoString) :
    ∃ stem, p = stem ++ Ext p ∧ tempDmgPath p = some (stem ++ lit "_temp.dmg") := by
  have hle := Ext_length_le p
  refine ⟨p.take (p.length - (Ext p).length), ?_, ?_⟩
  · rcases Ext_cases p with h | ⟨i, hi, hd, _⟩
    · simp [h]
    · have : p.length - (Ext p).length = i := by
        rw [hd, List.length_drop]; omega
      rw [this]
      conv_rhs => rw [hd]
      exact (List.take_append_drop i p).symm
  · unfold tempDmgPath sliceTo
    have h1 : (0 : Int) ≤ (p.length : Int) - ((Ext p).length : Int) := by omega
    have h2 : (p.length : Int) - ((Ext p).length : Int) ≤ (p.length : Int) := by omega
    have h3 : ((p.length : Int) - ((Ext p).length : Int)).toNat = p.length - (Ext p).length := by
      omega
    simp [h1, h3]

theorem tempDmgPath_ne (p t : GoString) (h : tempDmgPath p = some t) : t ≠ p := by
  obtain ⟨stem, hp, ht⟩ := tempDmgPath_eq p
  rw [ht] at h
  injection h with h
  intro heq
  rw [← h] at heq
  have h2 : stem ++ lit "_temp.dmg" = stem ++ Ext p := heq.trans hp
  have h3 := List.append_cancel_left h2
  rcases Ext_cases p with h0 | ⟨i, _, _, hh⟩
  · rw [h0] at h3; simp [lit] at h3
  · rw [← h3] at hh; simp [lit] at hh

theorem extLoop_append (a : GoString) : ∀ b : GoString,
    extLoop (a ++ b) a.length =
      if '.' ∈ a.reverse.takeWhile (fun c => c != '/') then
        '.' :: ((a.reverse.takeWhile (fun c => c != '/')).takeWhile
          (fun c => c != '.')).reverse ++ b
      else [] := by
  induction a using List.reverseRecOn with
  | nil => intro b; simp [extLoop]
  | append_singleton a c ih =>
    intro b
    have hget : (a ++ [c] ++ b).get? a.length = some c := by
      rw [List.get?_eq_getElem?, List.append_assoc, List.getElem?_append_right (Nat.le_refl _)]
      simp
    have hlen : (a ++ [c]).length = a.length + 1 := by simp
    rw [hlen]
    unfold extLoop
    rw [hget]
    simp only [List.reverse_append, List.reverse_cons, List.reverse_nil, List.nil_append,
      List.singleton_append]
    by_cases hs : c = '/'
    · subst hs
      simp [isPathSeparator, List.takeWhile_cons]
    · by_cases hd : c = '.'
      · subst hd
        simp [isPathSeparator, List.takeWhile_cons]
      · have h1 : isPathSeparator c = false := by simp [isPathSeparator, hs]
        have ih' := ih (c :: b)
        have e1 : a ++ [c] ++ b = a ++ c :: b := by simp
        rw [e1, h1]
        simp only [hd, if_false, Bool.false_eq_true]
        rw [ih']
        have hs' : (c != '/') = true := by simp [hs]
        have hd' : (c != '.') = true := by simp [hd]
        simp only [List.takeWhile_cons, hs', hd', if_true, List.mem_cons, List.reverse_cons,
          List.append_assoc, List.singleton_append]
        have hne : ¬ ('.' = c) := fun h => hd h.symm
        simp [hne]

theorem Ext_eq_specExt (p : GoString) : Ext p = specExt p := by
  have h := extLoop_append p []
  simp only [List.append_nil] at h
  unfold Ext specExt lastElement
  rw [h]
  simp

/-- The extension has no separator in it. -/
theorem specExt_no_separator (p : GoString) : ∀ c ∈ specExt p, c ≠ '/' := by
  intro c hc
  unfold specExt at hc
  split at hc
  · simp only [List.mem_cons, List.mem_reverse] at hc
    rcases hc with h | h
    · rw [h]; decide
    · have h2 := List.takeWhile_subset _ h
      unfold lastElement at h2
      simp only [List.reverse_reverse] at h2
      have := List.mem_takeWhile_imp h2
      simpa using this
  · simp at hc

theorem dirOf_append (stem s : GoString) (hs : ∀ c ∈ s, c ≠ '/') :
    dirOf (stem ++ s) = dirOf stem := by
  unfold dirOf
  rw [List.reverse_append]
  congr 1
  have : ∀ (r : List Char), (∀ c ∈ r, c ≠ '/') →
      (r ++ stem.reverse).dropWhile (fun c => c != '/') = stem.reverse.dropWhile (fun c => c != '/') := by
    intro r hr
    induction r with
    | nil => rfl
    | cons x r ih =>
      have hx : (x != '/') = true := by simpa using hr x (List.mem_cons_self _ _)
      simp only [List.cons_append, List.dropWhile_cons, hx, if_true]
      exact ih (fun c hc => hr c (List.mem_cons_of_mem _ hc))
  exact this s.reverse (fun c hc => hs c (List.mem_reverse.mp hc))


theorem firstFailedTool_exec (s : Site) (argv : List GoString) (r : Option GoError)
    (rest : List Event) :
    firstFailedTool (.exec s argv r :: rest) =
      match r with
      | some e => some (s, e, rest)
      | none => firstFailedTool rest := by
  cases r <;> rfl

theorem volumeName_eq_spec (rest : List GoString) :
    volumeName rest = specVolumeName rest.head? := by
  cases rest with
  | nil => rfl
  | cons v more =>
    by_cases hv : v = [] <;> simp [volumeName, specVolumeName, hv]

/-- In every run the slice of line 68 does not panic, and the create, attach, convert
and delete steps all name the path computed at line 68. -/
theorem trace_uses_intermediate_path {σ : Type} (rt : Runtime σ) (w : σ)
    (prog appPath dmgPath : GoString) (rest : List GoString) (t : GoString)
    (ht : tempDmgPath dmgPath = some t) :
    Event.panic ∉ (main rt (prog :: appPath :: dmgPath :: rest) w).trace ∧
    (∀ e ∈ (main rt (prog :: appPath :: dmgPath :: rest) w).trace,
      ∀ q, imagePathOf e = some q → q = t) ∧
    (∀ argv r, .exec .convert argv r ∈ (main rt (prog :: appPath :: dmgPath :: rest) w).trace →
      argv = convertArgv t dmgPath) := by
  rw [main_cons]
  simp only [checked, staged, mounted, finish, deferRemoveAll, Run.after, ht]
  repeat' split
  all_goals simp [imagePathOf, createArgv, attachArgv, convertArgv]

/-! ## The claims -/

/-- C1: for every argument vector with at least two user arguments, in every run of
`main` in which no call returns an error, the last six actions are: the convert of
the intermediate image to the output path (the last tool invocation), the message
that announces the deletion, the successful `os.Remove` of the intermediate image,
the success message, and the two deferred directory removals. -/
theorem successful_run_ends_with_convert_and_delete {σ : Type} (rt : Runtime σ) (w : σ)
    (prog appPath dmgPath : GoString) (rest : List GoString)
    (h : ∀ ev ∈ (main rt (prog :: appPath :: dmgPath :: rest) w).trace, ev.failed = false) :
    ∃ tempDmg mountPoint tempDir,
      tempDmgPath dmgPath = some tempDmg ∧
      (main rt (prog :: appPath :: dmgPath :: rest) w).trace.drop
          ((main rt (prog :: appPath :: dmgPath :: rest) w).trace.length - 6) =
        [.exec .convert (convertArgv tempDmg dmgPath) none,
         .print (lit "Deleting temporary writable DMG file...\n"),
         .remove tempDmg none,
         .print (successMsg dmgPath (volumeName rest)),
         .removeAll mountPoint none,
         .removeAll tempDir none] := by
  revert h
  rw [main_cons]
  simp only [checked, staged, mounted, finish, deferRemoveAll, Run.after]
  repeat' split
  all_goals intro h
  all_goals simp [Event.failed, Except.toBool] at h
  all_goals simp_all [isNotExist]

/-- The example run of the specification, in the reference environment: no call
fails, the run ends as C1 says, the output image then exists and the intermediate
image does not. -/
theorem successful_run_ends_with_convert_and_delete_witness :
    (∀ ev ∈ (main Sim.runtime
        (lit "package-dmg" :: lit "MyApp.app" :: lit "Output.dmg" :: [lit "Cool App"])
        Sim.fresh).trace, ev.failed = false) ∧
    (∃ tempDmg mountPoint tempDir,
      tempDmgPath (lit "Output.dmg") = some tempDmg ∧
      (main Sim.runtime
        (lit "package-dmg" :: lit "MyApp.app" :: lit "Output.dmg" :: [lit "Cool App"])
        Sim.fresh).trace.drop
          ((main Sim.runtime
            (lit "package-dmg" :: lit "MyApp.app" :: lit "Output.dmg" :: [lit "Cool App"])
            Sim.fresh).trace.length - 6) =
        [.exec .convert (convertArgv tempDmg (lit "Output.dmg")) none,
         .print (lit "Deleting temporary writable DMG file...\n"),
         .remove tempDmg none,
         .print (successMsg (lit "Output.dmg") (volumeName [lit "Cool App"])),
         .removeAll mountPoint none,
         .removeAll tempDir none]) ∧
    Sim.present (exampleRun Sim.fresh).world (lit "Output.dmg") = true ∧
    Sim.present (exampleRun Sim.fresh).world (lit "Output_temp.dmg") = false :=
  ⟨by decide,
   successful_run_ends_with_convert_and_delete Sim.runtime Sim.fresh _ _ _ _ (by decide),
   by decide, by decide⟩

/-- C2: when the first tool invocation that returns an error is one of the five of the
pipeline (copy, create, attach, detach, convert), the next action of `main` is to
print `Error: Failed to <step>: <error>`, which begins with `Error:` and names that
step, and nothing follows but the deferred `os.RemoveAll` calls: no tool is invoked
and the intermediate image is not deleted. -/
theorem first_tool_failure_stops_pipeline {σ : Type} (rt : Runtime σ) (w : σ)
    (args : List GoString) (s : Site) (step : GoString) (e : GoError) (rest : List Event)
    (hs : stepName s = some step)
    (h : firstFailedTool (main rt args w).trace = some (s, e, rest)) :
    ∃ post,
      rest = .print (lit "Error: Failed to " ++ step ++ lit ": " ++ e.msg ++ lit "\n") :: post ∧
      lit "Error:" <+: lit "Error: Failed to " ++ step ++ lit ": " ++ e.msg ++ lit "\n" ∧
      ∀ ev ∈ post, ∃ p r, ev = .removeAll p r := by
  revert h
  unfold main
  split
  · simp only [checked, staged, mounted, finish, deferRemoveAll, Run.after]
    repeat' split
    all_goals intro h
    all_goals simp [firstFailedTool, firstFailedTool_exec] at h
    all_goals try split at h
    all_goals try simp [firstFailedTool] at h
    all_goals try (obtain ⟨h1, h2, h3⟩ := h)
    all_goals try subst h1
    all_goals try subst h2
    all_goals try subst h3
    all_goals simp [stepName] at hs
    all_goals subst hs
    all_goals simp [lit, copyFailedMsg, createFailedMsg, attachFailedMsg, detachFailedMsg,
      convertFailedMsg]
  · intro h
    simp [firstFailedTool] at h

/-- The example run with the convert tool failing, and with the copy tool failing. -/
theorem first_tool_failure_stops_pipeline_witness :
    (stepName .convert = some (lit "convert DMG to compressed format") ∧
     firstFailedTool (main Sim.runtime exampleArgs (Sim.failingAt (lit "convert"))).trace =
       some (.convert, Sim.eExit,
         [.print (lit "Error: Failed to convert DMG to compressed format: exit status 1\n"),
          .removeAll (lit "/tmp/dmgmount00") none,
          .removeAll (lit "/tmp/dmgtemp0") none]) ∧
     ∃ post,
       [.print (lit "Error: Failed to convert DMG to compressed format: exit status 1\n"),
        .removeAll (lit "/tmp/dmgmount00") none,
        .removeAll (lit "/tmp/dmgtemp0") none] =
         Event.print (lit "Error: Failed to " ++ lit "convert DMG to compressed format"
           ++ lit ": " ++ Sim.eExit.msg ++ lit "\n") :: post ∧
       lit "Error:" <+: lit "Error: Failed to " ++ lit "convert DMG to compressed format"
           ++ lit ": " ++ Sim.eExit.msg ++ lit "\n" ∧
       ∀ ev ∈ post, ∃ p r, ev = Event.removeAll p r) ∧
    (stepName .copy = some (lit "copy .app file") ∧
     firstFailedTool (main Sim.runtime exampleArgs (Sim.failingAt (lit "cp"))).trace =
       some (.copy, Sim.eExit,
         [.print (lit "Error: Failed to copy .app file: exit status 1\n"),
          .removeAll (lit "/tmp/dmgtemp0") none]) ∧
     ∃ post,
       [.print (lit "Error: Failed to copy .app file: exit status 1\n"),
        .removeAll (lit "/tmp/dmgtemp0") none] =
         Event.print (lit "Error: Failed to " ++ lit "copy .app file"
           ++ lit ": " ++ Sim.eExit.msg ++ lit "\n") :: post ∧
       lit "Error:" <+: lit "Error: Failed to " ++ lit "copy .app file"
           ++ lit ": " ++ Sim.eExit.msg ++ lit "\n" ∧
       ∀ ev ∈ post, ∃ p r, ev = Event.removeAll p r) :=
  ⟨⟨by decide, by decide,
    first_tool_failure_stops_pipeline Sim.runtime (Sim.failingAt (lit "convert")) exampleArgs
      .convert _ Sim.eExit _ (by decide) (by decide)⟩,
   ⟨by decide, by decide,
    first_tool_failure_stops_pipeline Sim.runtime (Sim.failingAt (lit "cp")) exampleArgs
      .copy _ Sim.eExit _ (by decide) (by decide)⟩⟩

/-- C3 (counterexample): in the reference environment with the detach tool failing,
the mount-point directory was created, its deferred `os.RemoveAll` returned an error,
and the directory still exists when the run has ended. -/
theorem mount_point_survives_failed_detach :
    Event.mkdirTemp (lit "") (lit "dmgmount") (.ok (lit "/tmp/dmgmount00")) ∈
      (exampleRun (Sim.failingAt (lit "detach"))).trace ∧
    (exampleRun (Sim.failingAt (lit "detach"))).trace.dropLast.getLast? =
      some (.removeAll (lit "/tmp/dmgmount00") (some Sim.eBusy)) ∧
    Sim.present (exampleRun (Sim.failingAt (lit "detach"))).world (lit "/tmp/dmgmount00")
      = true := by
  decide

/-- C3 (amended): on every exit path, if the staging directory was created the last
action of `main` is an `os.RemoveAll` call on it, and if the mount-point directory
was created the action before the last is an `os.RemoveAll` call on it; the results
of both calls are dropped. -/
theorem temp_dirs_removal_is_requested_on_every_exit {σ : Type} (rt : Runtime σ) (w : σ)
    (args : List GoString) :
    (∀ tempDir, .mkdirTemp (lit "") (lit "dmgtemp") (.ok tempDir) ∈ (main rt args w).trace →
      ∃ r, (main rt args w).trace.getLast? = some (.removeAll tempDir r)) ∧
    (∀ mountPoint,
      .mkdirTemp (lit "") (lit "dmgmount") (.ok mountPoint) ∈ (main rt args w).trace →
      ∃ r, (main rt args w).trace.dropLast.getLast? = some (.removeAll mountPoint r)) := by
  unfold main
  split
  · simp only [checked, staged, mounted, finish, deferRemoveAll, Run.after]
    repeat' split
    all_goals simp [lit]
  · simp

/-- The example run with the attach tool failing: both directories were created and
both removals are requested. -/
theorem temp_dirs_removal_is_requested_on_every_exit_witness :
    Event.mkdirTemp (lit "") (lit "dmgtemp") (.ok (lit "/tmp/dmgtemp0")) ∈
      (main Sim.runtime exampleArgs (Sim.failingAt (lit "attach"))).trace ∧
    Event.mkdirTemp (lit "") (lit "dmgmount") (.ok (lit "/tmp/dmgmount00")) ∈
      (main Sim.runtime exampleArgs (Sim.failingAt (lit "attach"))).trace ∧
    (∃ r, (main Sim.runtime exampleArgs (Sim.failingAt (lit "attach"))).trace.getLast? =
      some (.removeAll (lit "/tmp/dmgtemp0") r)) ∧
    (∃ r, (main Sim.runtime exampleArgs
        (Sim.failingAt (lit "attach"))).trace.dropLast.getLast? =
      some (.removeAll (lit "/tmp/dmgmount00") r)) :=
  ⟨by decide, by decide,
   (temp_dirs_removal_is_requested_on_every_exit Sim.runtime (Sim.failingAt (lit "attach"))
      exampleArgs).1 _ (by decide),
   (temp_dirs_removal_is_requested_on_every_exit Sim.runtime (Sim.failingAt (lit "attach"))
      exampleArgs).2 _ (by decide)⟩

/-- C4: when the `os.Stat` of the bundle path returns a not-exist error, `main` prints
`Error: .app file not found at <path>` and returns: the stat and the message are its
only actions, so no temporary directory, link or image is created and no tool is
invoked, and the world is as the stat left it. -/
theorem missing_bundle_stops_before_any_creation {σ : Type} (rt : Runtime σ) (w : σ)
    (prog appPath dmgPath : GoString) (rest : List GoString)
    (h : isNotExist (rt.stat appPath w).1 = true) :
    (main rt (prog :: appPath :: dmgPath :: rest) w).trace =
      [.stat appPath (rt.stat appPath w).1,
       .print (lit "Error: .app file not found at " ++ appPath ++ lit "\n")] ∧
    (main rt (prog :: appPath :: dmgPath :: rest) w).world = (rt.stat appPath w).2 ∧
    ∀ ev ∈ (main rt (prog :: appPath :: dmgPath :: rest) w).trace, ev.creates = false := by
  rw [main_cons]
  unfold checked
  split
  next serr w1 hs =>
    rw [hs] at h
    simp only at h
    simp [h, hs, notFoundMsg, Event.creates]

/-- The example run in a world without the bundle. -/
theorem missing_bundle_stops_before_any_creation_witness :
    isNotExist (Sim.runtime.stat (lit "MyApp.app") Sim.noBundle).1 = true ∧
    (main Sim.runtime
        (lit "package-dmg" :: lit "MyApp.app" :: lit "Output.dmg" :: [lit "Cool App"])
        Sim.noBundle).trace =
      [.stat (lit "MyApp.app") (some Sim.eNotExist),
       .print (lit "Error: .app file not found at MyApp.app\n")] ∧
    (main Sim.runtime
        (lit "package-dmg" :: lit "MyApp.app" :: lit "Output.dmg" :: [lit "Cool App"])
        Sim.noBundle).world = Sim.noBundle :=
  ⟨by decide,
   (missing_bundle_stops_before_any_creation Sim.runtime Sim.noBundle (lit "package-dmg")
      (lit "MyApp.app") (lit "Output.dmg") [lit "Cool App"] (by decide)).1,
   (missing_bundle_stops_before_any_creation Sim.runtime Sim.noBundle (lit "package-dmg")
      (lit "MyApp.app") (lit "Output.dmg") [lit "Cool App"] (by decide)).2.1⟩

/-- C5: in every run, the volume name that follows `-volname` in the command line of
the image-creation tool, and the one in the success message, is the third user
argument when that is present and non-empty and `My DMG` otherwise. -/
theorem volume_name_is_third_argument_or_default {σ : Type} (rt : Runtime σ) (w : σ)
    (prog appPath dmgPath : GoString) (rest : List GoString) :
    (∀ argv r, .exec .create argv r ∈ (main rt (prog :: appPath :: dmgPath :: rest) w).trace →
      argv.take 4 =
        [lit "hdiutil", lit "create", lit "-volname", specVolumeName rest.head?]) ∧
    (∀ m, .print m ∈ (main rt (prog :: appPath :: dmgPath :: rest) w).trace →
      lit "DMG successfully created" <+: m →
      m = lit "DMG successfully created at " ++ dmgPath ++ lit " with volume name: "
            ++ specVolumeName rest.head? ++ lit "\n") := by
  rw [main_cons, ← volumeName_eq_spec]
  simp only [checked, staged, mounted, finish, deferRemoveAll, Run.after]
  repeat' split
  all_goals simp [lit, createArgv, successMsg, notFoundMsg, absFailedMsg, tempDirFailedMsg,
    copyFailedMsg, symlinkFailedMsg, createFailedMsg, mountPointFailedMsg, attachFailedMsg,
    symlinkInDmgFailedMsg, detachFailedMsg, convertFailedMsg, deleteFailedMsg]

/-- Runs with an empty third argument and with no third argument: the image is created
with the volume name `My DMG`. -/
theorem volume_name_is_third_argument_or_default_witness :
    (Event.exec .create
        (createArgv (lit "My DMG") (lit "/tmp/dmgtemp0") (lit "Output_temp.dmg")) none ∈
      (main Sim.runtime
        (lit "package-dmg" :: lit "MyApp.app" :: lit "Output.dmg" :: [lit ""])
        Sim.fresh).trace ∧
     (createArgv (lit "My DMG") (lit "/tmp/dmgtemp0") (lit "Output_temp.dmg")).take 4 =
       [lit "hdiutil", lit "create", lit "-volname", specVolumeName (some (lit ""))]) ∧
    (Event.exec .create
        (createArgv (lit "My DMG") (lit "/tmp/dmgtemp0") (lit "Output_temp.dmg")) none ∈
      (main Sim.runtime
        (lit "package-dmg" :: lit "MyApp.app" :: lit "Output.dmg" :: [])
        Sim.fresh).trace ∧
     (createArgv (lit "My DMG") (lit "/tmp/dmgtemp0") (lit "Output_temp.dmg")).take 4 =
       [lit "hdiutil", lit "create", lit "-volname", specVolumeName none]) :=
  ⟨⟨by decide,
    (volume_name_is_third_argument_or_default Sim.runtime Sim.fresh (lit "package-dmg")
      (lit "MyApp.app") (lit "Output.dmg") [lit ""]).1 _ none (by decide)⟩,
   ⟨by decide,
    (volume_name_is_third_argument_or_default Sim.runtime Sim.fresh (lit "package-dmg")
      (lit "MyApp.app") (lit "Output.dmg") []).1 _ none (by decide)⟩⟩

/-- C6: for every output path, the path that the create, attach, convert and delete
steps use as the intermediate image is the output path with its extension (the suffix
starting at the last dot of the last path element, empty if there is none) replaced
by `_temp.dmg`; it lies in the directory of the output path; for `Output.dmg` it is
`Output_temp.dmg`. -/
theorem intermediate_path_replaces_extension (dmgPath : GoString) :
    ∃ stem,
      dmgPath = stem ++ specExt dmgPath ∧
      tempDmgPath dmgPath = some (stem ++ lit "_temp.dmg") ∧
      dirOf (stem ++ lit "_temp.dmg") = dirOf dmgPath ∧
      (∀ {σ : Type} (rt : Runtime σ) (w : σ) (prog appPath : GoString)
          (rest : List GoString),
        ∀ e ∈ (main rt (prog :: appPath :: dmgPath :: rest) w).trace,
        ∀ q, imagePathOf e = some q → q = stem ++ lit "_temp.dmg") ∧
      tempDmgPath (lit "Output.dmg") = some (lit "Output_temp.dmg") := by
  obtain ⟨stem, hp, ht⟩ := tempDmgPath_eq dmgPath
  rw [Ext_eq_specExt] at hp
  refine ⟨stem, hp, ht, ?_, ?_, by decide⟩
  · have h1 : dirOf (stem ++ lit "_temp.dmg") = dirOf stem :=
      dirOf_append stem _ (by decide)
    have h2 : dirOf (stem ++ specExt dmgPath) = dirOf stem :=
      dirOf_append stem _ (specExt_no_separator dmgPath)
    rw [h1]
    conv_rhs => rw [hp]
    exact h2.symm
  · intro σ rt w prog appPath rest
    exact (trace_uses_intermediate_path rt w prog appPath dmgPath rest _ ht).2.1

/-- C7 (the code at the failing input): the image has no `Applications` link and the
`os.Lstat` of the shortcut at the mount point returns permission denied.  The guard of
line 98, `!os.IsNotExist(err)`, holds of that error, so `main` prints that the symlink
already exists, creates nothing at the mount point, unmounts, converts and reports
success: the image it produced has no shortcut, against the comment of line 96 and
the message of line 99.  With the same image and no refusal the shortcut is created. -/
theorem unmount_without_shortcut_after_lstat_error :
    firstLstat (exampleRun Sim.lstatDenied).trace =
      some (lit "/tmp/dmgmount00/Applications", some Sim.eDenied,
        [.print (lit "Symlink already exists in DMG mount point. Skipping creation.\n"),
         .print (lit "Unmounting DMG file...\n"),
         .exec .detach (detachArgv (lit "/tmp/dmgmount00")) none,
         .print (lit "Converting DMG to compressed format...\n"),
         .exec .convert (convertArgv (lit "Output_temp.dmg") (lit "Output.dmg")) none,
         .print (lit "Deleting temporary writable DMG file...\n"),
         .remove (lit "Output_temp.dmg") none,
         .print (successMsg (lit "Output.dmg") (lit "Cool App")),
         .removeAll (lit "/tmp/dmgmount00") none,
         .removeAll (lit "/tmp/dmgtemp0") none]) ∧
    Sim.present (exampleRun Sim.lstatDenied).world (lit "Output.dmg") = true ∧
    lit "/work/Output.dmg" ∉ (exampleRun Sim.lstatDenied).world.linked ∧
    lit "/work/Output.dmg" ∈ (exampleRun Sim.linkless).world.linked := by
  decide

/-- C8 (the code at the failing input): a first example run succeeds; a second run
from the world it leaves creates the intermediate image again (its command line has
`-ov`) but its convert, whose command line has no `-ov`, fails on the existing output,
`main` prints the convert error and the intermediate image is left behind. -/
theorem second_run_fails_at_convert :
    Event.print (successMsg (lit "Output.dmg") (lit "Cool App")) ∈
      (exampleRun Sim.fresh).trace ∧
    firstFailedTool (exampleRun afterFirstRun).trace =
      some (.convert, Sim.eExit,
        [.print (lit "Error: Failed to convert DMG to compressed format: exit status 1\n"),
         .removeAll (lit "/tmp/dmgmount0000") none,
         .removeAll (lit "/tmp/dmgtemp000") none]) ∧
    Event.exec .convert
        [lit "hdiutil", lit "convert", lit "Output_temp.dmg", lit "-format", lit "UDZO",
         lit "-o", lit "Output.dmg"] (some Sim.eExit) ∈ (exampleRun afterFirstRun).trace ∧
    lit "-ov" ∉ convertArgv (lit "Output_temp.dmg") (lit "Output.dmg") ∧
    lit "-ov" ∈ createArgv (lit "Cool App") (lit "/tmp/dmgtemp000") (lit "Output_temp.dmg") ∧
    Sim.present (exampleRun afterFirstRun).world (lit "Output_temp.dmg") = true := by
  decide

/-- C9 (counterexample): in the reference environment in which the `stat` of the
bundle is refused (an error other than not-exist), `main` goes on: it creates the
staging directory and invokes the copy tool. -/
theorem staging_created_after_stat_error :
    (exampleRun Sim.bundleDenied).trace.take 4 =
      [.stat (lit "MyApp.app") (some Sim.eDenied),
       .abs (lit "MyApp.app") (.ok (lit "/work/MyApp.app")),
       .mkdirTemp (lit "") (lit "dmgtemp") (.ok (lit "/tmp/dmgtemp0")),
       .exec .copy
         (copyArgv (lit "/work/MyApp.app") (lit "/tmp/dmgtemp0/MyApp.app"))
         (some Sim.eExit)] := by
  decide

/-- C9 (amended): the first action of `main` is the `os.Stat` of the bundle path;
`main` creates a temporary directory or a link, or invokes a tool, only if that stat
did not return a not-exist error; and when the stat returns no not-exist error (no
error, or an error of another kind) and the path resolves, `main` goes on to create
the staging directory. -/
theorem staging_only_after_bundle_not_reported_missing {σ : Type} (rt : Runtime σ) (w : σ)
    (prog appPath dmgPath : GoString) (rest : List GoString) :
    (main rt (prog :: appPath :: dmgPath :: rest) w).trace.head? =
      some (.stat appPath (rt.stat appPath w).1) ∧
    ((∃ ev ∈ (main rt (prog :: appPath :: dmgPath :: rest) w).trace, ev.creates = true) →
      isNotExist (rt.stat appPath w).1 = false) ∧
    (isNotExist (rt.stat appPath w).1 = false →
      ∀ absAppPath, (rt.abs appPath (rt.stat appPath w).2).1 = .ok absAppPath →
      (main rt (prog :: appPath :: dmgPath :: rest) w).trace.take 3 =
        [.stat appPath (rt.stat appPath w).1,
         .abs appPath (.ok absAppPath),
         .mkdirTemp (lit "") (lit "dmgtemp")
           (rt.mkdirTemp (lit "") (lit "dmgtemp")
             (rt.abs appPath (rt.stat appPath w).2).2).1]) := by
  rw [main_cons]
  simp only [checked, staged, mounted, finish, deferRemoveAll, Run.after]
  repeat' split
  all_goals simp_all [Event.creates]

/-- C10: for every output path the slice of line 68 is within bounds, the intermediate
path differs from the output path, and in every run `main` does not panic, its
convert has the intermediate path as input and the output path as output, and its
`os.Remove` is never of the output path; so for the empty path, a path without
extension and a path whose only dot is in a directory name. -/
theorem intermediate_path_in_bounds_and_distinct (dmgPath : GoString) :
    sliceTo dmgPath ((dmgPath.length : Int) - ((Ext dmgPath).length : Int)) ≠ none ∧
    (∃ t, tempDmgPath dmgPath = some t ∧ t ≠ dmgPath ∧
      ∀ {σ : Type} (rt : Runtime σ) (w : σ) (prog appPath : GoString)
        (rest : List GoString),
        Event.panic ∉ (main rt (prog :: appPath :: dmgPath :: rest) w).trace ∧
        (∀ argv r,
          .exec .convert argv r ∈ (main rt (prog :: appPath :: dmgPath :: rest) w).trace →
          argv = convertArgv t dmgPath) ∧
        (∀ q r, .remove q r ∈ (main rt (prog :: appPath :: dmgPath :: rest) w).trace →
          q ≠ dmgPath)) ∧
    tempDmgPath (lit "") = some (lit "_temp.dmg") ∧
    tempDmgPath (lit "build/Output") = some (lit "build/Output_temp.dmg") ∧
    tempDmgPath (lit "v1.2/Output") = some (lit "v1.2/Output_temp.dmg") := by
  obtain ⟨stem, hp, ht⟩ := tempDmgPath_eq dmgPath
  refine ⟨?_, ⟨_, ht, tempDmgPath_ne dmgPath _ ht, ?_⟩, by decide, by decide, by decide⟩
  · intro hnone
    unfold tempDmgPath at ht
    rw [hnone] at ht
    simp at ht
  · intro σ rt w prog appPath rest
    have h := trace_uses_intermediate_path rt w prog appPath dmgPath rest _ ht
    refine ⟨h.1, h.2.2, ?_⟩
    intro q r hq
    have hq2 := h.2.1 _ hq q rfl
    rw [hq2]
    exact tempDmgPath_ne dmgPath _ ht

end PackageDmg
